import Mathlib

/-!
Shallow embedding of sandman2/app.py: the schema-reflection-to-resource-registration
pipeline.  Pure data and total functions mirror the Python source; the fallible
ad-hoc view-spec path (tuple indexing that can raise IndexError) returns Except.
HTTP serving, the ORM and the admin UI are external collaborators and are out of
scope; route bindings are modelled as the list of (rule, methods) pairs that
register_service passes to add_url_rule.
-/

namespace Sandman

/-- HTTP verbs that appear in the source (the default set, the read-only
override and typical declared method sets). -/
inductive Method where
  | GET
  | POST
  | PUT
  | PATCH
  | DELETE
deriving DecidableEq, Repr

/-- Abstraction of a SQLAlchemy column type: the three isinstance checks that
register_model performs (sqltypes.String covers character/text types,
sqltypes.Integer covers integral types, sqltypes.Numeric covers
numeric/decimal/floating types). -/
structure ColType where
  isString : Bool
  isInteger : Bool
  isNumeric : Bool
deriving DecidableEq, Repr

/-- sqlalchemy String (character/text). -/
def stringCT : ColType := ⟨true, false, false⟩

/-- sqlalchemy Integer (integral; not a subclass of Numeric). -/
def integerCT : ColType := ⟨false, true, false⟩

/-- sqlalchemy Float (a subclass of Numeric). -/
def floatCT : ColType := ⟨false, false, true⟩

/-- A primary-key column: name and declared type. -/
structure PKCol where
  name : String
  type : ColType
deriving DecidableEq, Repr

/-- A model class as register_model sees it: __name__, __table__.name, the
optional __methods__ declaration (present in __dict__ or absent), and the
primary-key columns of its table. -/
structure ModelCls where
  name : String
  tableName : String
  methods : Option (Finset Method)
  pkCols : List PKCol
deriving DecidableEq

/-- One add_url_rule call: the rule string and the HTTP methods bound to it. -/
structure Route where
  rule : String
  methods : Finset Method
deriving DecidableEq

/-- The record produced by registering one model: the class, its __url__, the
resolved primary-key routing type, the computed method set, and the routes
passed to add_url_rule. -/
structure Registration where
  cls : ModelCls
  url : String
  pkType : String
  methods : Finset Method
  routes : List Route
deriving DecidableEq

/-- Python str.lower on each character (the source lowercases the class name). -/
def py_lower (s : String) : String :=
  String.mk (s.toList.map Char.toLower)

/-- Python str.split with a one-character separator, on the character list. -/
def split_chars (sep : Char) : List Char → List (List Char)
  | [] => [[]]
  | c :: cs =>
    let r := split_chars sep cs
    if c = sep then [] :: r
    else
      match r with
      | [] => [[c]]
      | g :: gs => (c :: g) :: gs

/-- Python str.split with a one-character separator. -/
def py_split (s : String) (sep : Char) : List String :=
  (split_chars sep s.toList).map (fun cs => String.mk cs)

/-- get_app splits str_viewpktype on commas, then each part on slashes. -/
def split_tuples (s : String) : List (List String) :=
  (py_split s ',').map (fun part => py_split part '/')

/-- Python tuple indexing: out-of-range access raises IndexError. -/
def py_get (t : List String) (i : Nat) : Except String String :=
  match t.get? i with
  | some x => Except.ok x
  | none => Except.error "IndexError: tuple index out of range"

/-- The primary-key type cascade in register_model (lines 170-181): default
"string"; for exactly one primary-key column, isinstance String gives "string",
then isinstance Integer gives "int", then isinstance Numeric gives "float";
anything unmatched keeps the "string" default.  The tags are the Flask URL
converter names: "int" is the integer routing type, "float" the floating one. -/
def resolve_primary_key_type (cols : List ColType) : String :=
  match cols with
  | [c] =>
    if c.isString then "string"
    else if c.isInteger then "int"
    else if c.isNumeric then "float"
    else "string"
  | _ => "string"

/-- register_service: __methods__ from the class __dict__ when declared,
otherwise the default set. -/
def declared_or_default (declared : Option (Finset Method)) : Finset Method :=
  match declared with
  | some m => m
  | none => {Method.GET, Method.POST}

/-- The item-level rule string "url/<pkType:resource_id>". -/
def item_rule (url pkType : String) : String :=
  url ++ "/<" ++ pkType ++ ":resource_id>"

/-- The add_url_rule calls made by register_service, in order: collection GET
and meta GET when GET is allowed, collection POST when POST is allowed, and
always the item-level rule for every allowed method except POST. -/
def register_service_routes (url : String) (methods : Finset Method) (pkType : String) :
    List Route :=
  (if Method.GET ∈ methods then
    [⟨url ++ "/", {Method.GET}⟩, ⟨url ++ "/meta", {Method.GET}⟩]
  else []) ++
  (if Method.POST ∈ methods then [⟨url ++ "/", {Method.POST}⟩] else []) ++
  [⟨item_rule url pkType, methods \ {Method.POST}⟩]

/-- register_model followed by register_service: derive __url__, resolve the
primary-key routing type from the table's primary-key columns, compute the
method set and bind the routes.  No error is raised on an empty primary key:
the "string" default applies whenever the column count is not exactly one. -/
def register_model (cls : ModelCls) : Registration :=
  let url := "/" ++ py_lower cls.name
  let pkType := resolve_primary_key_type (cls.pkCols.map PKCol.type)
  let methods := declared_or_default cls.methods
  ⟨cls, url, pkType, methods, register_service_routes url methods pkType⟩

/-- The read-only override in _reflect_all: cls.__methods__ = set(("GET",)). -/
def force_get (cls : ModelCls) : ModelCls :=
  ⟨cls.name, cls.tableName, some {Method.GET}, cls.pkCols⟩

/-- _reflect_all: walk the automapped classes; skip a class whose table name is
in a non-empty exclusion list; when read_only is set, overwrite __methods__
with the GET singleton before registering. -/
def _reflect_all (tables : List ModelCls) (exclude : List String) (ro : Bool) :
    List Registration :=
  match tables with
  | [] => []
  | cls :: rest =>
    if exclude ≠ [] ∧ cls.tableName ∈ exclude then _reflect_all rest exclude ro
    else register_model (if ro then force_get cls else cls) :: _reflect_all rest exclude ro

/-- _register_user_models: register each user model; the read-only flag is not
consulted on this path. -/
def _register_user_models (user_models : List ModelCls) : List Registration :=
  user_models.map register_model

/-- A reflected database column (name and type), as live table metadata. -/
structure DBCol where
  name : String
  type : ColType
deriving DecidableEq, Repr

/-- A column attached to a synthesized view model via setattr. -/
structure AttrCol where
  name : String
  type : ColType
  nullable : Bool
deriving DecidableEq, Repr

/-- A synthesized ad-hoc view model: the model class plus the reflected
columns attached as attributes. -/
structure ViewModel where
  cls : ModelCls
  attrs : List AttrCol
deriving DecidableEq

/-- Live database metadata for views: table name to reflected column list. -/
def meta_lookup : List (String × List DBCol) → String → Option (List DBCol)
  | [], _ => none
  | (k, v) :: rest, n => if k = n then some v else meta_lookup rest n

/-- The type-tag dispatch in _register_view_models: "string" gives String,
"int" gives Integer, and anything else falls to the final branch, Float. -/
def tag_to_coltype (tag : String) : ColType :=
  if tag = "string" then stringCT
  else if tag = "int" then integerCT
  else floatCT

/-- The view model built once the table autoload has succeeded with the given
reflected columns: a model class whose single declared primary key is
(pk_name, tag type); the table's column collection is the declared key
followed by the reflected columns not shadowed by it; every column other than
the declared key is attached as a nullable attribute. -/
def build_view (reflected : List DBCol) (view_name pk_name pktype_str : String) :
    ViewModel :=
  let pktype := tag_to_coltype pktype_str
  let columns := DBCol.mk pk_name pktype :: reflected.filter (fun c => c.name ≠ pk_name)
  let attrs := (columns.filter (fun c => c.name ≠ pk_name)).map
    (fun c => AttrCol.mk c.name c.type true)
  ViewModel.mk (ModelCls.mk view_name view_name none [PKCol.mk pk_name pktype]) attrs

/-- The body of the _register_view_models loop, after the tuple fields are in
hand: Table(view_name, ..., autoload=True, autoload_with=db.engine) raises
NoSuchTableError when the named view is absent from the live metadata, which
aborts application construction; otherwise the view model is built from the
reflected columns. -/
def synthesize_view_model (dbMeta : List (String × List DBCol))
    (view_name pk_name pktype_str : String) : Except String ViewModel :=
  match meta_lookup dbMeta view_name with
  | none => Except.error ("NoSuchTableError: " ++ view_name)
  | some reflected => Except.ok (build_view reflected view_name pk_name pktype_str)

/-- One iteration of _register_view_models: index the tuple at 0, 1 and 2
(an IndexError aborts startup), then synthesize the view model (a failed
table autoload aborts startup too). -/
def register_view_tuple (dbMeta : List (String × List DBCol)) (t : List String) :
    Except String ViewModel := do
  let view_name ← py_get t 0
  let pk_name ← py_get t 1
  let pktype_str ← py_get t 2
  synthesize_view_model dbMeta view_name pk_name pktype_str

/-- _register_view_models: process the parsed tuples in order; the first raised
IndexError propagates and aborts application construction. -/
def _register_view_models (dbMeta : List (String × List DBCol)) :
    List (List String) → Except String (List ViewModel)
  | [] => Except.ok []
  | t :: ts => do
    let vm ← register_view_tuple dbMeta t
    let rest ← _register_view_models dbMeta ts
    Except.ok (vm :: rest)

/-- The keyword inputs of get_app that drive discovery. -/
structure AppConfig where
  exclude_tables : List String
  user_models : List ModelCls
  reflect_all : Bool
  read_only : Bool
  str_viewpktype : Option String
deriving DecidableEq

/-- The three discovery modes of the Schema Discovery Driver. -/
inductive DiscoveryMode where
  | explicit
  | reflect
  | adhoc
deriving DecidableEq, Repr

/-- The discovery passes get_app actually runs, in order: user models when the
list is truthy, ELSE full reflection when enabled (the source uses elif, so a
truthy user-model list suppresses reflection); then ad-hoc view specs whenever
str_viewpktype is not None. -/
def discovery_passes (cfg : AppConfig) : List DiscoveryMode :=
  (if cfg.user_models ≠ [] then [DiscoveryMode.explicit]
   else if cfg.reflect_all then [DiscoveryMode.reflect]
   else []) ++
  (match cfg.str_viewpktype with
   | some _ => [DiscoveryMode.adhoc]
   | none => [])

/-- get_app restricted to its registration effect: the ordered list of
registrations appended to app.classes, or the startup error that aborted
construction.  dbTables stands for the automapped classes reflection finds,
dbMeta for the live table metadata the ad-hoc path autoloads. -/
def get_app (dbTables : List ModelCls) (dbMeta : List (String × List DBCol))
    (cfg : AppConfig) : Except String (List Registration) :=
  let base :=
    if cfg.user_models ≠ [] then _register_user_models cfg.user_models
    else if cfg.reflect_all then
      _reflect_all dbTables cfg.exclude_tables cfg.read_only
    else []
  match cfg.str_viewpktype with
  | none => Except.ok base
  | some s => do
    let vms ← _register_view_models dbMeta (split_tuples s)
    Except.ok (base ++ vms.map (fun vm => register_model vm.cls))

/-- Modelled from the spec: Model.primary_key lives in sandman2/model.py,
which is not under src/; per the spec every registered resource has exactly
one primary_key_name known at registration time, and the index template embeds
the resource's actual primary-key column name.  We model it as the name of the
(first) primary-key column. -/
def primary_key (cls : ModelCls) : String :=
  ((cls.pkCols.map PKCol.name).headD "")

/-- Python dict assignment: an existing key is updated in place (its position
kept), a new key is appended. -/
def dict_set (d : List (String × String)) (k v : String) : List (String × String) :=
  if k ∈ d.map Prod.fst then
    d.map (fun p => if p.1 = k then (k, v) else p)
  else d ++ [(k, v)]

/-- The index-entry template "url{/pk}" built by the index view. -/
def index_entry (reg : Registration) : String × String :=
  (reg.cls.name, reg.url ++ "\x7b/" ++ primary_key reg.cls ++ "\x7d")

/-- The index view: fold over app.classes in insertion order, mapping each
model's __name__ to its "url{/pk}" template in a Python dict. -/
def index (regs : List Registration) : List (String × String) :=
  regs.foldl (fun d reg => dict_set d (index_entry reg).1 (index_entry reg).2) []

/-- Flip only the read_only input of a configuration. -/
def set_read_only (cfg : AppConfig) (b : Bool) : AppConfig :=
  ⟨cfg.exclude_tables, cfg.user_models, cfg.reflect_all, b, cfg.str_viewpktype⟩

/-- The view model a tuple registers when its named view exists in the live
metadata: build_view on the looked-up columns and the three indexed fields. -/
def view_of (dbMeta : List (String × List DBCol)) (t : List String) : ViewModel :=
  build_view ((meta_lookup dbMeta (t.getD 0 "")).getD []) (t.getD 0 "") (t.getD 1 "")
    (t.getD 2 "")

/- Concrete fixtures used by counterexamples and witnesses. -/

/-- A user model with an integer primary key and no __methods__ declaration. -/
def widget : ModelCls := ModelCls.mk "Widget" "widget" none [PKCol.mk "id" integerCT]

/-- A model declaring __methods__ = set(("POST",)). -/
def postOnly : ModelCls :=
  ModelCls.mk "Jobs" "jobs" (some {Method.POST}) [PKCol.mk "id" integerCT]

/-- A model whose table declares zero primary-key columns. -/
def bare : ModelCls := ModelCls.mk "Bare" "bare" none []

/-- A reflected table named orders. -/
def ordersModel : ModelCls :=
  ModelCls.mk "Orders" "orders" none [PKCol.mk "id" integerCT]

/-- A reflected table named users. -/
def usersModel : ModelCls :=
  ModelCls.mk "Users" "users" none [PKCol.mk "id" integerCT]

/-- A second table, with a string primary key named note_id. -/
def notesModel : ModelCls :=
  ModelCls.mk "Notes" "notes" none [PKCol.mk "note_id" stringCT]

/-- read-only app built from a non-empty user-model list. -/
def roCfg : AppConfig := AppConfig.mk [] [widget] true true none

/-- Non-empty user models, reflection enabled, and an ad-hoc view spec. -/
def threeCfg : AppConfig := AppConfig.mk [] [widget] true false (some "v/pk/int")

/-- Live metadata for the reports and logs views of the spec's example. -/
def reportsMeta : List (String × List DBCol) :=
  [("reports", [DBCol.mk "report_id" integerCT, DBCol.mk "title" stringCT]),
   ("logs", [DBCol.mk "log_id" stringCT, DBCol.mk "level" integerCT])]

/-- Live metadata containing the v view, with a pk column and one other. -/
def vMeta : List (String × List DBCol) :=
  [("v", [DBCol.mk "pk" integerCT, DBCol.mk "note" stringCT])]

/- Helper lemmas shared by the claim theorems. -/

/-- Filtering twice with the same predicate filters once. -/
theorem filter_filter_self {α : Type} (p : α → Bool) (l : List α) :
    (l.filter p).filter p = l.filter p := by
  induction l with
  | nil => rfl
  | cons a t ih => by_cases h : p a <;> simp [List.filter_cons, h, ih]

/-- A tuple with at least three fields whose named view exists never raises:
one view model is synthesized from its first three fields. -/
theorem register_view_tuple_ok (dbMeta : List (String × List DBCol))
    (t : List String) (h : 3 ≤ t.length)
    (hm : meta_lookup dbMeta (t.getD 0 "") ≠ none) :
    register_view_tuple dbMeta t = Except.ok (view_of dbMeta t) := by
  cases t with
  | nil => simp at h
  | cons a t1 =>
    cases t1 with
    | nil => simp at h
    | cons b t2 =>
      cases t2 with
      | nil =>
        exfalso
        simp only [List.length_cons, List.length_nil] at h
        omega
      | cons c t3 =>
        cases hml : meta_lookup dbMeta a with
        | none => exact absurd hml hm
        | some reflected =>
          have hv : view_of dbMeta (a :: b :: c :: t3) =
              build_view ((meta_lookup dbMeta a).getD []) a b c := rfl
          show synthesize_view_model dbMeta a b c =
            Except.ok (view_of dbMeta (a :: b :: c :: t3))
          rw [hv]
          simp only [synthesize_view_model]
          rw [hml]
          rfl

/-- A tuple with fewer than three fields raises IndexError. -/
theorem register_view_tuple_short (dbMeta : List (String × List DBCol))
    (t : List String) (h : t.length < 3) :
    register_view_tuple dbMeta t = Except.error "IndexError: tuple index out of range" := by
  cases t with
  | nil => rfl
  | cons a t1 =>
    cases t1 with
    | nil => rfl
    | cons b t2 =>
      cases t2 with
      | nil => rfl
      | cons c t3 =>
        exfalso
        simp only [List.length_cons] at h
        omega

/-- When every tuple has at least three fields and every named view exists,
_register_view_models succeeds and produces one view model per tuple, in
order. -/
theorem view_models_ok (dbMeta : List (String × List DBCol)) (ts : List (List String))
    (h : ∀ t ∈ ts, 3 ≤ t.length)
    (hm : ∀ t ∈ ts, meta_lookup dbMeta (t.getD 0 "") ≠ none) :
    _register_view_models dbMeta ts = Except.ok (ts.map (view_of dbMeta)) := by
  induction ts with
  | nil => rfl
  | cons t rest ih =>
    have h1 : register_view_tuple dbMeta t = Except.ok (view_of dbMeta t) :=
      register_view_tuple_ok dbMeta t (h t (List.mem_cons_self t rest))
        (hm t (List.mem_cons_self t rest))
    have h2 : _register_view_models dbMeta rest = Except.ok (rest.map (view_of dbMeta)) :=
      ih (fun u hu => h u (List.mem_cons_of_mem t hu))
        (fun u hu => hm u (List.mem_cons_of_mem t hu))
    simp only [_register_view_models]
    rw [h1, h2]
    rfl

/-- If some tuple has fewer than three fields, _register_view_models aborts. -/
theorem view_models_err (dbMeta : List (String × List DBCol)) (ts : List (List String))
    (h : ∃ t, t ∈ ts ∧ t.length < 3) :
    (_register_view_models dbMeta ts).toOption = none := by
  induction ts with
  | nil =>
    obtain ⟨t, ht, _⟩ := h
    simp at ht
  | cons u rest ih =>
    obtain ⟨t, ht, hlen⟩ := h
    rcases List.mem_cons.mp ht with rfl | hmem
    · simp only [_register_view_models]
      rw [register_view_tuple_short dbMeta t hlen]
      rfl
    · cases hcall : register_view_tuple dbMeta u with
      | error e =>
        simp only [_register_view_models]
        rw [hcall]
        rfl
      | ok vm =>
        have hrec := ih ⟨t, hmem, hlen⟩
        simp only [_register_view_models]
        rw [hcall]
        cases hrest : _register_view_models dbMeta rest with
        | error e => rfl
        | ok l =>
          rw [hrest] at hrec
          simp [Except.toOption] at hrec

/-- Folding dict_set over registrations whose names are fresh and pairwise
distinct appends one entry per registration, in order. -/
theorem index_fold (regs : List Registration) (d : List (String × String))
    (hnd : (regs.map (fun r => r.cls.name)).Nodup)
    (hdisj : ∀ r ∈ regs, r.cls.name ∉ d.map Prod.fst) :
    regs.foldl (fun acc reg => dict_set acc (index_entry reg).1 (index_entry reg).2) d
      = d ++ regs.map index_entry := by
  induction regs generalizing d with
  | nil => simp
  | cons r rest ih =>
    have hr : r.cls.name ∉ d.map Prod.fst := hdisj r (List.mem_cons_self r rest)
    have hnd0 : (r.cls.name :: rest.map (fun x => x.cls.name)).Nodup := by
      simpa only [List.map_cons] using hnd
    have hnd' := List.nodup_cons.mp hnd0
    have hstep : dict_set d (index_entry r).1 (index_entry r).2 = d ++ [index_entry r] := by
      simp only [dict_set, index_entry]
      rw [if_neg hr]
    have hdisj' : ∀ u ∈ rest, u.cls.name ∉ (d ++ [index_entry r]).map Prod.fst := by
      intro u hu
      simp only [List.map_append, List.mem_append]
      rintro (hin | hin)
      · exact hdisj u (List.mem_cons_of_mem r hu) hin
      · simp only [index_entry, List.map_cons, List.map_nil, List.mem_singleton] at hin
        exact hnd'.1 (hin ▸ List.mem_map_of_mem (fun x => x.cls.name) hu)
    rw [List.foldl_cons, hstep, ih (d ++ [index_entry r]) hnd'.2 hdisj']
    simp

/-- The register_service bindings for the default method set: collection GET,
meta GET, collection POST, and the item rule carrying GET alone. -/
theorem register_service_routes_default (url pkType : String) :
    register_service_routes url {Method.GET, Method.POST} pkType =
      [Route.mk (url ++ "/") {Method.GET}, Route.mk (url ++ "/meta") {Method.GET},
       Route.mk (url ++ "/") {Method.POST},
       Route.mk (item_rule url pkType) {Method.GET}] := by
  have hd : ({Method.GET, Method.POST} : Finset Method) \ {Method.POST} = {Method.GET} := by
    decide
  simp only [register_service_routes]
  rw [if_pos (by decide), if_pos (by decide), hd]
  rfl

/-- C1 counterexample: an application built with the read-only flag set whose
resources come from a non-empty user-model list registers its resource with
allowed methods GET and POST, not exactly GET — get_app consults read_only
only on the reflection branch, and register_service never reads the flag. -/
theorem read_only_ignored_for_user_models_cex :
    roCfg.read_only = true
    ∧ get_app [] [] roCfg = Except.ok [register_model widget]
    ∧ widget.methods = none
    ∧ (register_model widget).methods = {Method.GET, Method.POST}
    ∧ ({Method.GET, Method.POST} : Finset Method) ≠ ({Method.GET} : Finset Method) :=
  ⟨rfl, rfl, rfl, rfl, by decide⟩

/-- C1 (amended): the read-only flag forces the allowed methods to exactly
GET for every resource registered by full reflection, overriding any declared
method set; but when the user-model list is non-empty the flag has no effect
at all on the constructed application. -/
theorem read_only_scope :
    (∀ (tables : List ModelCls) (exclude : List String) (reg : Registration),
      reg ∈ _reflect_all tables exclude true → reg.methods = {Method.GET})
    ∧ (∀ (tables : List ModelCls) (dbMeta : List (String × List DBCol)) (cfg : AppConfig),
      cfg.user_models ≠ [] →
      get_app tables dbMeta (set_read_only cfg true) =
        get_app tables dbMeta (set_read_only cfg false)) := by
  constructor
  · intro tables exclude reg h
    induction tables with
    | nil => simp [_reflect_all] at h
    | cons cls rest ih =>
      simp only [_reflect_all] at h
      by_cases hc : exclude ≠ [] ∧ cls.tableName ∈ exclude
      · rw [if_pos hc] at h
        exact ih h
      · rw [if_neg hc] at h
        rcases List.mem_cons.mp h with h1 | h1
        · rw [h1]
          rfl
        · exact ih h1
  · intro tables dbMeta cfg h
    simp only [get_app, set_read_only]
    rw [if_pos h, if_pos h]

/-- C1 witness: a concrete reflected read-only registration carries exactly
GET, and flipping the flag leaves a user-model app unchanged. -/
theorem read_only_scope_witness :
    (register_model (force_get widget)).methods = {Method.GET}
    ∧ get_app [] [] (set_read_only roCfg true) = get_app [] [] (set_read_only roCfg false) :=
  ⟨read_only_scope.1 [widget] [] (register_model (force_get widget)) (by decide),
   read_only_scope.2 [] [] roCfg (by decide)⟩

/-- C2 counterexample: with a non-empty user-model list, reflect_all enabled
and an ad-hoc view spec supplied, get_app runs only the explicit and ad-hoc
passes — the source guards reflection with elif, so the reflect pass is
absent rather than second. -/
theorem discovery_order_cex :
    threeCfg.user_models ≠ []
    ∧ threeCfg.reflect_all = true
    ∧ threeCfg.str_viewpktype ≠ none
    ∧ discovery_passes threeCfg = [DiscoveryMode.explicit, DiscoveryMode.adhoc]
    ∧ discovery_passes threeCfg ≠
        [DiscoveryMode.explicit, DiscoveryMode.reflect, DiscoveryMode.adhoc]
    ∧ DiscoveryMode.reflect ∉ discovery_passes threeCfg :=
  ⟨by decide, rfl, by decide, rfl, by decide, by decide⟩

/-- C2 (amended): when the explicit user-model list is non-empty the
reflection pass never runs, whatever the reflect_all flag says: discovery is
the explicit pass, followed by the ad-hoc pass exactly when a view-spec
string is supplied. -/
theorem discovery_mode_sequencing (cfg : AppConfig) (h : cfg.user_models ≠ []) :
    DiscoveryMode.reflect ∉ discovery_passes cfg
    ∧ (cfg.str_viewpktype = none → discovery_passes cfg = [DiscoveryMode.explicit])
    ∧ (∀ s, cfg.str_viewpktype = some s →
        discovery_passes cfg = [DiscoveryMode.explicit, DiscoveryMode.adhoc]) := by
  refine ⟨?_, ?_, ?_⟩
  · simp only [discovery_passes]
    rw [if_pos h]
    cases hs : cfg.str_viewpktype <;> simp
  · intro hs
    simp only [discovery_passes]
    rw [if_pos h, hs]
    rfl
  · intro s hs
    simp only [discovery_passes]
    rw [if_pos h, hs]
    rfl

/-- C2 witness: the concrete three-mode configuration runs the explicit pass
then the ad-hoc pass. -/
theorem discovery_mode_sequencing_witness :
    discovery_passes threeCfg = [DiscoveryMode.explicit, DiscoveryMode.adhoc] :=
  (discovery_mode_sequencing threeCfg (by decide)).2.2 "v/pk/int" rfl

/-- C3: the primary-key routing type resolves, checked in order: a key of
more than one column gives "string"; otherwise a character/text column gives
"string", an integral column gives "int" (the integer routing type), a
numeric/decimal/floating column gives "float", and any unmatched type falls
back to "string".  The resolver is a total function, so no input raises. -/
theorem primary_key_type_resolution :
    (∀ cols : List ColType, 1 < cols.length → resolve_primary_key_type cols = "string")
    ∧ (∀ c : ColType, c.isString = true → resolve_primary_key_type [c] = "string")
    ∧ (∀ c : ColType, c.isString = false → c.isInteger = true →
        resolve_primary_key_type [c] = "int")
    ∧ (∀ c : ColType, c.isString = false → c.isInteger = false → c.isNumeric = true →
        resolve_primary_key_type [c] = "float")
    ∧ (∀ c : ColType, c.isString = false → c.isInteger = false → c.isNumeric = false →
        resolve_primary_key_type [c] = "string") := by
  refine ⟨?_, ?_, ?_, ?_, ?_⟩
  · intro cols h
    cases cols with
    | nil => rfl
    | cons a t =>
      cases t with
      | nil => simp at h
      | cons b r => rfl
  · intro c h
    simp [resolve_primary_key_type, h]
  · intro c h1 h2
    simp [resolve_primary_key_type, h1, h2]
  · intro c h1 h2 h3
    simp [resolve_primary_key_type, h1, h2, h3]
  · intro c h1 h2 h3
    simp [resolve_primary_key_type, h1, h2, h3]

/-- C3 witness: each branch of the resolution rule at a concrete column type. -/
theorem primary_key_type_resolution_witness :
    resolve_primary_key_type [integerCT, stringCT] = "string"
    ∧ resolve_primary_key_type [stringCT] = "string"
    ∧ resolve_primary_key_type [integerCT] = "int"
    ∧ resolve_primary_key_type [floatCT] = "float"
    ∧ resolve_primary_key_type [ColType.mk false false false] = "string" :=
  ⟨primary_key_type_resolution.1 [integerCT, stringCT] (by decide),
   primary_key_type_resolution.2.1 stringCT rfl,
   primary_key_type_resolution.2.2.1 integerCT rfl rfl,
   primary_key_type_resolution.2.2.2.1 floatCT rfl rfl rfl,
   primary_key_type_resolution.2.2.2.2 (ColType.mk false false false) rfl rfl rfl⟩

/-- C4: a resource with no declared method restriction, registered with the
read-only flag unset (reflection applies no override and the user-model path
none either), gets allowed methods exactly GET and POST, and its bound routes
are exactly: collection GET, meta GET, collection POST, and the typed
item-level rule for every allowed method except POST — here GET alone. -/
theorem default_methods_and_routes (cls : ModelCls) (h : cls.methods = none) :
    _reflect_all [cls] [] false = [register_model cls]
    ∧ _register_user_models [cls] = [register_model cls]
    ∧ (register_model cls).methods = {Method.GET, Method.POST}
    ∧ (register_model cls).routes =
        [Route.mk ((register_model cls).url ++ "/") {Method.GET},
         Route.mk ((register_model cls).url ++ "/meta") {Method.GET},
         Route.mk ((register_model cls).url ++ "/") {Method.POST},
         Route.mk (item_rule (register_model cls).url (register_model cls).pkType)
           {Method.GET}] := by
  have hm : declared_or_default cls.methods = {Method.GET, Method.POST} := by
    rw [h]
    rfl
  refine ⟨rfl, rfl, hm, ?_⟩
  show register_service_routes ("/" ++ py_lower cls.name) (declared_or_default cls.methods)
      (resolve_primary_key_type (cls.pkCols.map PKCol.type)) = _
  rw [hm, register_service_routes_default]
  rfl

/-- C4 witness: the default-method registration of a concrete model. -/
theorem default_methods_and_routes_witness :
    _reflect_all [widget] [] false = [register_model widget]
    ∧ _register_user_models [widget] = [register_model widget]
    ∧ (register_model widget).methods = {Method.GET, Method.POST}
    ∧ (register_model widget).routes =
        [Route.mk ((register_model widget).url ++ "/") {Method.GET},
         Route.mk ((register_model widget).url ++ "/meta") {Method.GET},
         Route.mk ((register_model widget).url ++ "/") {Method.POST},
         Route.mk (item_rule (register_model widget).url (register_model widget).pkType)
           {Method.GET}] :=
  default_methods_and_routes widget rfl

/-- C5: for a well-formed ad-hoc view-spec string (three slash-separated
fields per comma tuple, known type tag, every named view present in the live
metadata — a missing view would raise NoSuchTableError and abort startup),
one view model is registered per tuple, in order; each has the named column
as its single declared primary key, its routing type is exactly the given
tag, and every column reflected from the live table metadata other than the
declared key is attached as a nullable attribute. -/
theorem adhoc_view_registration (dbMeta : List (String × List DBCol)) (s : String)
    (hlen : ∀ t ∈ split_tuples s, t.length = 3)
    (htag : ∀ t ∈ split_tuples s,
      t.getD 2 "" = "string" ∨ t.getD 2 "" = "int" ∨ t.getD 2 "" = "float")
    (hmeta : ∀ t ∈ split_tuples s, meta_lookup dbMeta (t.getD 0 "") ≠ none) :
    _register_view_models dbMeta (split_tuples s) =
      Except.ok ((split_tuples s).map (view_of dbMeta))
    ∧ ∀ t ∈ split_tuples s,
        (view_of dbMeta t).cls.name = t.getD 0 ""
        ∧ (view_of dbMeta t).cls.methods = none
        ∧ (view_of dbMeta t).cls.pkCols =
            [PKCol.mk (t.getD 1 "") (tag_to_coltype (t.getD 2 ""))]
        ∧ (register_model (view_of dbMeta t).cls).pkType = t.getD 2 ""
        ∧ (view_of dbMeta t).attrs =
            (((meta_lookup dbMeta (t.getD 0 "")).getD []).filter
              (fun c => c.name ≠ t.getD 1 "")).map
              (fun c => AttrCol.mk c.name c.type true) := by
  constructor
  · exact view_models_ok dbMeta (split_tuples s)
      (fun t ht => le_of_eq (hlen t ht).symm) hmeta
  · intro t ht
    refine ⟨rfl, rfl, rfl, ?_, ?_⟩
    · have hv : view_of dbMeta t =
          build_view ((meta_lookup dbMeta (t.getD 0 "")).getD []) (t.getD 0 "")
            (t.getD 1 "") (t.getD 2 "") := rfl
      rw [hv]
      rcases htag t ht with h | h | h <;> rw [h] <;> rfl
    · simp [view_of, build_view, List.filter_cons, filter_filter_self]

/-- C5 witness: the spec's example string registers the reports view with an
integer-typed key and the logs view with a string-typed key, each exposing
the remaining reflected column as a nullable attribute. -/
theorem adhoc_view_registration_witness :
    _register_view_models reportsMeta
        (split_tuples "reports/report_id/int,logs/log_id/string") =
      Except.ok
        [ViewModel.mk (ModelCls.mk "reports" "reports" none
            [PKCol.mk "report_id" integerCT]) [AttrCol.mk "title" stringCT true],
         ViewModel.mk (ModelCls.mk "logs" "logs" none
            [PKCol.mk "log_id" stringCT]) [AttrCol.mk "level" integerCT true]] :=
  ((adhoc_view_registration reportsMeta "reports/report_id/int,logs/log_id/string"
    (by decide) (by decide) (by decide)).1).trans rfl

/-- C6 counterexample: a model whose table declares zero primary-key columns
is registered anyway — register_model completes with the default "string"
routing type and binds the full default route set instead of aborting. -/
theorem zero_pk_registers_cex :
    bare.pkCols = []
    ∧ (register_model bare).pkType = "string"
    ∧ (register_model bare).routes =
        [Route.mk "/bare/" {Method.GET}, Route.mk "/bare/meta" {Method.GET},
         Route.mk "/bare/" {Method.POST},
         Route.mk "/bare/<string:resource_id>" {Method.GET}] :=
  ⟨rfl, rfl, by decide⟩

/-- C6 (amended): registering a resource with zero primary-key columns is not
an error: registration completes normally with the default "string" routing
type and a non-empty route set. -/
theorem zero_pk_default_string (cls : ModelCls) (h : cls.pkCols = []) :
    (register_model cls).pkType = "string" ∧ (register_model cls).routes ≠ [] := by
  constructor
  · show resolve_primary_key_type (cls.pkCols.map PKCol.type) = "string"
    rw [h]
    rfl
  · show register_service_routes ("/" ++ py_lower cls.name) (declared_or_default cls.methods)
        (resolve_primary_key_type (cls.pkCols.map PKCol.type)) ≠ []
    simp [register_service_routes]

/-- C6 witness: the concrete keyless model registers with "string". -/
theorem zero_pk_default_string_witness :
    (register_model bare).pkType = "string" ∧ (register_model bare).routes ≠ [] :=
  zero_pk_default_string bare rfl

/-- C7 counterexample: a view-spec tuple whose type tag is outside
string/int/float, naming a view that exists in the live metadata, is not a
startup error: the view is registered with the Float column type substituted,
which then routes as "float". -/
theorem bad_tag_registers_float_cex :
    ("banana" ≠ "string" ∧ "banana" ≠ "int" ∧ "banana" ≠ "float")
    ∧ meta_lookup vMeta "v" = some [DBCol.mk "pk" integerCT, DBCol.mk "note" stringCT]
    ∧ _register_view_models vMeta [["v", "pk", "banana"]] =
        Except.ok [ViewModel.mk (ModelCls.mk "v" "v" none [PKCol.mk "pk" floatCT])
          [AttrCol.mk "note" stringCT true]]
    ∧ (register_model (ModelCls.mk "v" "v" none [PKCol.mk "pk" floatCT])).pkType = "float" :=
  ⟨by decide, rfl, rfl, rfl⟩

/-- C7 (amended): a view-spec tuple with fewer than three slash-separated
fields is fatal (the IndexError aborts registration), and so is a tuple
naming a view absent from the live metadata (NoSuchTableError); but a tuple
whose type tag is outside string/int/float is not: provided its view exists,
it registers normally with the Float column type substituted for the unknown
tag. -/
theorem view_spec_error_behavior :
    (∀ (dbMeta : List (String × List DBCol)) (ts : List (List String)),
      (∃ t, t ∈ ts ∧ t.length < 3) → (_register_view_models dbMeta ts).toOption = none)
    ∧ (∀ (dbMeta : List (String × List DBCol)) (n p tag : String),
      meta_lookup dbMeta n = none →
      (register_view_tuple dbMeta [n, p, tag]).toOption = none)
    ∧ (∀ (dbMeta : List (String × List DBCol)) (n p tag : String)
        (reflected : List DBCol),
      meta_lookup dbMeta n = some reflected →
      tag ≠ "string" → tag ≠ "int" →
      register_view_tuple dbMeta [n, p, tag] =
        Except.ok (build_view reflected n p tag)
      ∧ (build_view reflected n p tag).cls.pkCols = [PKCol.mk p floatCT]) := by
  refine ⟨fun dbMeta ts h => view_models_err dbMeta ts h, ?_, ?_⟩
  · intro dbMeta n p tag hm
    show (synthesize_view_model dbMeta n p tag).toOption = none
    simp only [synthesize_view_model]
    rw [hm]
    rfl
  · intro dbMeta n p tag reflected hm h1 h2
    constructor
    · show synthesize_view_model dbMeta n p tag = Except.ok (build_view reflected n p tag)
      simp only [synthesize_view_model]
      rw [hm]
    · show [PKCol.mk p (tag_to_coltype tag)] = [PKCol.mk p floatCT]
      simp [tag_to_coltype, h1, h2]

/-- C7 witness: a two-field tuple aborts, a tuple naming an absent view
aborts, and a banana-tagged tuple over an existing view registers with a
Float primary key. -/
theorem view_spec_error_behavior_witness :
    (_register_view_models vMeta [["a", "b"]]).toOption = none
    ∧ (register_view_tuple [] ["v", "pk", "int"]).toOption = none
    ∧ (build_view [DBCol.mk "pk" integerCT, DBCol.mk "note" stringCT]
        "v" "pk" "banana").cls.pkCols = [PKCol.mk "pk" floatCT] :=
  ⟨view_spec_error_behavior.1 vMeta [["a", "b"]] ⟨["a", "b"], by decide, by decide⟩,
   view_spec_error_behavior.2.1 [] "v" "pk" "int" rfl,
   (view_spec_error_behavior.2.2 vMeta "v" "pk" "banana"
     [DBCol.mk "pk" integerCT, DBCol.mk "note" stringCT] rfl (by decide) (by decide)).2⟩

/-- C8: when registered resource names are pairwise distinct (duplicate names
are a caller error elsewhere in the spec), the index mapping holds exactly
one entry per registered resource, in insertion order, keyed by the
resource's name, and valued by the template "url\x7b/pk\x7d" embedding that
resource's actual primary-key column name. -/
theorem index_one_entry_per_resource (regs : List Registration)
    (h : (regs.map (fun r => r.cls.name)).Nodup) :
    index regs = regs.map index_entry := by
  have key := index_fold regs [] h (by simp)
  simpa [index] using key

/-- C8 witness: two concrete registrations give two index entries with the
actual primary-key names embedded. -/
theorem index_one_entry_per_resource_witness :
    index [register_model usersModel, register_model notesModel] =
      [("Users", "/users\x7b/id\x7d"), ("Notes", "/notes\x7b/note_id\x7d")] :=
  (index_one_entry_per_resource [register_model usersModel, register_model notesModel]
    (by decide)).trans rfl

/-- C9: during full reflection every table whose name is in the non-empty
exclusion set is skipped entirely: no registration (hence no routes and no
registry entry) carries an excluded table name. -/
theorem reflect_all_skips_excluded (tables : List ModelCls) (exclude : List String)
    (ro : Bool) (reg : Registration) (hex : exclude ≠ [])
    (h : reg ∈ _reflect_all tables exclude ro) :
    reg.cls.tableName ∉ exclude := by
  induction tables with
  | nil => simp [_reflect_all] at h
  | cons cls rest ih =>
    simp only [_reflect_all] at h
    by_cases hc : exclude ≠ [] ∧ cls.tableName ∈ exclude
    · rw [if_pos hc] at h
      exact ih h
    · rw [if_neg hc] at h
      rcases List.mem_cons.mp h with h1 | h1
      · have hnotin : cls.tableName ∉ exclude := by
          by_contra hin
          exact hc ⟨hex, hin⟩
        rw [h1]
        cases ro with
        | false => exact hnotin
        | true => exact hnotin
      · exact ih h1

/-- C9 witness: reflecting orders and users with exclusion list [orders]
registers only users, whose table name is not "orders"; the orders-only
database yields an empty registry. -/
theorem reflect_all_skips_excluded_witness :
    (register_model usersModel).cls.tableName ∉ ["orders"]
    ∧ _reflect_all [ordersModel] ["orders"] false = [] :=
  ⟨reflect_all_skips_excluded [ordersModel, usersModel] ["orders"] false
    (register_model usersModel) (by decide) (by decide), rfl⟩

/-- C10: register_service adds the item-level rule unconditionally — it is
always the final bound route, carrying the allowed methods minus POST — so a
resource declaring only POST still gets an item rule, with an empty method
set. -/
theorem item_route_unconditional :
    (∀ cls : ModelCls, (register_model cls).routes.getLast? =
      some (Route.mk (item_rule (register_model cls).url (register_model cls).pkType)
        ((register_model cls).methods \ {Method.POST})))
    ∧ (∀ cls : ModelCls, cls.methods = some {Method.POST} →
      (register_model cls).routes =
        [Route.mk ((register_model cls).url ++ "/") {Method.POST},
         Route.mk (item_rule (register_model cls).url (register_model cls).pkType)
           (∅ : Finset Method)]) := by
  constructor
  · intro cls
    show (register_service_routes ("/" ++ py_lower cls.name) (declared_or_default cls.methods)
        (resolve_primary_key_type (cls.pkCols.map PKCol.type))).getLast? = _
    simp only [register_service_routes]
    rw [List.getLast?_concat]
    rfl
  · intro cls h
    have hm : declared_or_default cls.methods = {Method.POST} := by
      rw [h]
      rfl
    show register_service_routes ("/" ++ py_lower cls.name) (declared_or_default cls.methods)
        (resolve_primary_key_type (cls.pkCols.map PKCol.type)) = _
    rw [hm]
    simp only [register_service_routes]
    rw [if_neg (by decide), if_pos (by decide)]
    have hd : ({Method.POST} : Finset Method) \ {Method.POST} = (∅ : Finset Method) := by
      decide
    rw [hd]
    rfl

/-- C10 witness: the POST-only model still gets the item rule, with no
methods bound to it. -/
theorem item_route_unconditional_witness :
    (register_model postOnly).routes =
      [Route.mk "/jobs/" {Method.POST},
       Route.mk "/jobs/<int:resource_id>" (∅ : Finset Method)] :=
  (item_route_unconditional.2 postOnly rfl).trans (by decide)

end Sandman




